import Mathlib

/-!
Verification development for the model-router framework.

The embedding follows the Python sources:
* src/models.py        — data model (configs, rules, feature summaries, handles)
* src/utils/text_analysis.py — feature extraction heuristics
* src/router.py        — selection engine and retry/fallback invoker

Machine integers are modelled as Nat (all quantities involved are
non-negative counts), strings as Lean strings over their character lists,
Python dict[str, Any] parameter maps as association lists with opaque
(string) values, and Python truthiness tests on optional fields are made
explicit (None and the empty string/list are falsy).  Exceptions are
modelled by an explicit error type: each constructor corresponds to one
raise site of the source, labelled with the error name the specification
gives that failure.
-/

namespace ModelRouterLean

/-- Substring test on character lists (Python's `needle in hay`):
true iff the first list occurs contiguously inside the second. -/
def chars_begins : List Char → List Char → Bool
  | [], _ => true
  | _ :: _, [] => false
  | a :: as, b :: bs => decide (a = b) && chars_begins as bs

/-- Contiguous-substring test: does `needle` occur inside `hay`? -/
def chars_sub : List Char → List Char → Bool
  | needle, [] => chars_begins needle []
  | needle, c :: t => chars_begins needle (c :: t) || chars_sub needle t

/-- Python's str.lower(), modelled at ASCII scope (the keyword and trigger
phrases the code compares against are all ASCII). -/
def py_lower (s : String) : List Char := s.data.map Char.toLower

/-! ### Data model (src/models.py) -/

/-- RetryPolicy dataclass: max_attempts (default 2), backoff_ms (default 200). -/
structure RetryPolicy where
  max_attempts : Nat := 2
  backoff_ms : Nat := 200
deriving DecidableEq

/-- RuleConditionRange dataclass: optional inclusive lower bound gte,
optional exclusive upper bound lt. -/
structure RuleConditionRange where
  gte : Option Nat := none
  lt : Option Nat := none
deriving DecidableEq

/-- RuleCondition dataclass: every field optional (None = unset). -/
structure RuleCondition where
  task_type : Option String := none
  complexity : Option String := none
  language : Option String := none
  tenant_tiers : Option (List String) := none
  context_tokens_range : Option RuleConditionRange := none
  chunk_tokens_range : Option RuleConditionRange := none
deriving DecidableEq

/-- ModelConfig dataclass.  Parameter values are opaque to the router and
modelled as strings; fields not consulted by the routed code paths
(languages, strengths, cost_tier) are omitted. -/
structure ModelConfig where
  id : String
  provider : String
  type : String
  model_id : String
  max_context_tokens : Option Nat := none
  max_chunk_tokens : Option Nat := none
  default_params : List (String × String) := []
  backup_model_id : Option String := none
  retry_policy : RetryPolicy := {}
deriving DecidableEq

/-- RoutingRule dataclass. -/
structure RoutingRule where
  id : String
  when : RuleCondition
  use_model : String
  override_params : List (String × String) := []
deriving DecidableEq

/-- RouterConfig dataclass: the models dict is modelled as an association
list from model id to ModelConfig. -/
structure RouterConfig where
  models : List (String × ModelConfig)
  rules : List RoutingRule
  default_chat_model_id : Option String := none
  default_embedding_model_id : Option String := none
deriving DecidableEq

/-- TaskDescriptor dataclass (metadata is opaque and never consulted). -/
structure TaskDescriptor where
  text : String
  task_type : String := "chat"
  context_tokens : Option Nat := none
  tenant_id : Option String := none
  tenant_tier : String := "standard"
  metadata : List (String × String) := []
deriving DecidableEq

/-- FeatureSummary dataclass. -/
structure FeatureSummary where
  task_type : String
  token_count : Nat
  size_class : String
  language : String
  complexity : String
  context_tokens : Nat
  tenant_tier : String
deriving DecidableEq

/-- ModelSelection dataclass. -/
structure ModelSelection where
  model_config : ModelConfig
  params : List (String × String)
deriving DecidableEq

/-- One constructor per distinct raise site of the source, labelled with
the name the specification's error taxonomy gives that failure:
* keyError            — dict KeyError on models[use_model] lookup
* noDefaultConfigured — RuntimeError in _select_model_for_features
* capacityExceeded    — ValueError in _ensure_context_limit
                        (spec: CapacityExceededError)
* typeMismatch        — TypeError in ModelHandle.chat/.embed
                        (spec: TypeMismatchError)
* backendError        — an exception from a provider call re-raised as is
* exhaustedNoBackup   — ThrottlingError "... no backup_model_id configured"
                        (spec: ExhaustedNoBackupError)
* backupNotFound      — ThrottlingError "... not found in config"
                        (spec: BackupNotFoundError)
* bothExhausted       — ThrottlingError "... both throttled"
                        (spec: BothExhaustedError) -/
inductive RouterError where
  | keyError (key : String)
  | noDefaultConfigured (task_type : String)
  | capacityExceeded (actual limit : Nat) (model_id : String)
  | typeMismatch (msg : String)
  | backendError (msg : String)
  | exhaustedNoBackup (model_id : String)
  | backupNotFound (backup_id model_id : String)
  | bothExhausted (primary_id backup_id : String)
deriving DecidableEq

/-! ### Feature extraction (src/utils/text_analysis.py) -/

/-- estimate_tokens: max(1, len(text) // 4). -/
def estimate_tokens (text : String) : Nat :=
  max 1 (text.length / 4)

/-- classify_size: small below 256 tokens, medium below 2048, else large. -/
def classify_size (token_count : Nat) : String :=
  if token_count < 256 then "small"
  else if token_count < 2048 then "medium"
  else "large"

/-- detect_language: "en" when the ASCII character ratio exceeds 0.8, else
"multi".  The Python float comparison ascii/max(1,len) > 0.8 is modelled
with exact rational arithmetic as 5*ascii > 4*max(1,len). -/
def detect_language (text : String) : String :=
  let ascii_chars := (text.data.filter (fun c => c.toNat < 128)).length
  if 4 * max 1 text.length < 5 * ascii_chars then "en" else "multi"

/-- estimate_complexity: trigger phrases force "high"; otherwise length
thresholds 1000 (high) and 300 (medium), else "low". -/
def estimate_complexity (text : String) : String :=
  let lowercase := py_lower text
  if chars_sub "explain in detail".data lowercase
      || chars_sub "architecture".data lowercase then "high"
  else if 1000 < text.length then "high"
  else if 300 < text.length then "medium"
  else "low"

/-- build_feature_summary: derive the FeatureSummary from a TaskDescriptor.
Python's context_tokens or 0 yields 0 both for None and for 0. -/
def build_feature_summary (task : TaskDescriptor) : FeatureSummary :=
  let tokens := estimate_tokens task.text
  { task_type := task.task_type
    token_count := tokens
    size_class := classify_size tokens
    language := detect_language task.text
    complexity := estimate_complexity task.text
    context_tokens := match task.context_tokens with | none => 0 | some n => n
    tenant_tier := task.tenant_tier }

/-! ### Selection engine (src/router.py) -/

/-- One equality guard of _rule_matches:
"if cond.x and cond.x != features.x: return False".
Passes when the field is unset or falsy (empty string) or equal. -/
def checkEq (cond : Option String) (v : String) : Bool :=
  match cond with
  | none => true
  | some s => decide (s = "") || decide (s = v)

/-- The tenant-tier guard of _rule_matches:
"if cond.tenant_tiers and features.tenant_tier not in cond.tenant_tiers".
Passes when the field is unset or falsy (empty list) or contains the tier. -/
def checkTier (cond : Option (List String)) (v : String) : Bool :=
  match cond with
  | none => true
  | some l => decide (l = []) || decide (v ∈ l)

/-- One range guard of _rule_matches.  A present RuleConditionRange object
is always truthy in Python, so only None skips the guard; gte is an
inclusive lower bound and lt an exclusive upper bound, each optional. -/
def checkRange (cond : Option RuleConditionRange) (v : Nat) : Bool :=
  match cond with
  | none => true
  | some rg =>
      (match rg.gte with | none => true | some g => decide (g ≤ v)) &&
      (match rg.lt with | none => true | some u => decide (v < u))

/-- _rule_matches: the conjunction of the six condition guards. -/
def rule_matches (rule : RoutingRule) (features : FeatureSummary) : Bool :=
  checkEq rule.when.task_type features.task_type &&
  checkEq rule.when.complexity features.complexity &&
  checkEq rule.when.language features.language &&
  checkTier rule.when.tenant_tiers features.tenant_tier &&
  checkRange rule.when.context_tokens_range features.context_tokens &&
  checkRange rule.when.chunk_tokens_range features.token_count

/-- Python dict lookup models.get(key) over the association list. -/
def lookupModel (models : List (String × ModelConfig)) (key : String) :
    Option ModelConfig :=
  match models.find? (fun p => p.1 = key) with
  | none => none
  | some p => some p.2

/-- Python dict.update: replace the value of an existing key in place,
append a fresh key at the end. -/
def dictUpdateOne (base : List (String × String)) (kv : String × String) :
    List (String × String) :=
  if base.any (fun p => p.1 = kv.1) then
    base.map (fun p => if p.1 = kv.1 then (p.1, kv.2) else p)
  else base ++ [kv]

/-- params = dict(defaults); params.update(overrides). -/
def dictUpdate (base upds : List (String × String)) : List (String × String) :=
  upds.foldl dictUpdateOne base

/-- _ensure_context_limit.  Python truthiness: a max of None or 0 skips the
check ("if model_cfg.max_context_tokens:" / "max_chunk_tokens:"). -/
def ensure_context_limit (model_cfg : ModelConfig) (features : FeatureSummary) :
    Except RouterError Unit :=
  if features.task_type = "chat"
      ∧ model_cfg.max_context_tokens.getD 0 ≠ 0
      ∧ model_cfg.max_context_tokens.getD 0 < features.context_tokens then
    .error (.capacityExceeded features.context_tokens
      (model_cfg.max_context_tokens.getD 0) model_cfg.id)
  else if features.task_type = "embedding"
      ∧ model_cfg.max_chunk_tokens.getD 0 ≠ 0
      ∧ model_cfg.max_chunk_tokens.getD 0 < features.token_count then
    .error (.capacityExceeded features.token_count
      (model_cfg.max_chunk_tokens.getD 0) model_cfg.id)
  else .ok ()

/-- The body of the first-match loop of _select_model_for_features for one
matched rule: model lookup (KeyError when absent), parameter merge,
capacity check, selection. -/
def apply_rule (models : List (String × ModelConfig)) (features : FeatureSummary)
    (rule : RoutingRule) : Except RouterError ModelSelection :=
  match lookupModel models rule.use_model with
  | none => .error (.keyError rule.use_model)
  | some model_cfg =>
      match ensure_context_limit model_cfg features with
      | .error e => .error e
      | .ok _ =>
          .ok ⟨model_cfg,
            dictUpdate model_cfg.default_params rule.override_params⟩

/-- The rule loop of _select_model_for_features: first matching rule in
table order decides; none = no rule matched. -/
def select_from_rules (models : List (String × ModelConfig))
    (features : FeatureSummary) :
    List RoutingRule → Option (Except RouterError ModelSelection)
  | [] => none
  | r :: rest =>
      if rule_matches r features then some (apply_rule models features r)
      else select_from_rules models features rest

/-- _select_model_for_features: try rules in order, then fall back to the
task kind's default model id (Python truthiness: a missing or empty default
id raises "No default model configured"). -/
def select_model_for_features (cfg : RouterConfig) (features : FeatureSummary) :
    Except RouterError ModelSelection :=
  match select_from_rules cfg.models features cfg.rules with
  | some res => res
  | none =>
      let default_id :=
        if features.task_type = "chat" then cfg.default_chat_model_id
        else cfg.default_embedding_model_id
      match default_id with
      | none => .error (.noDefaultConfigured features.task_type)
      | some d =>
          if d = "" then .error (.noDefaultConfigured features.task_type)
          else
            match lookupModel cfg.models d with
            | none => .error (.keyError d)
            | some model_cfg =>
                match ensure_context_limit model_cfg features with
                | .error e => .error e
                | .ok _ => .ok ⟨model_cfg, model_cfg.default_params⟩

/-! ### Resilient invoker (src/router.py) -/

/-- _is_throttling_error: keyword test on the lowercased message. -/
def is_throttling_error (msg : String) : Bool :=
  let m := py_lower msg
  chars_sub "throttling".data m ||
  chars_sub "rate limit".data m ||
  chars_sub "too many requests".data m ||
  chars_sub "tokens per minute".data m

/-- Outcome of one provider invocation: a value, or an exception carrying
its message (the only part of an exception the invoker inspects). -/
inductive CallOutcome (α : Type) where
  | success (v : α)
  | failure (msg : String)
deriving DecidableEq

/-- How one retry loop ended; the Nat records the final attempt number
(the loop body in the source increments attempt before each call, so the
first call is attempt 1). -/
inductive LoopResult (α : Type) where
  | returned (v : α) (attempts : Nat)
  | raised (msg : String) (attempts : Nat)
  | exhausted (attempts : Nat)
deriving DecidableEq

/-- The final attempt number of a finished loop. -/
def LoopResult.attempts : LoopResult α → Nat
  | .returned _ a => a
  | .raised _ a => a
  | .exhausted a => a

/-- The while-True retry loop at the current attempt number; remaining is
the number of further attempts the policy still allows (max_attempts -
attempt), which makes the break condition attempt >= max_attempts of the
source the remaining = 0 case. -/
def retry_loop_go (outcomes : Nat → CallOutcome α) (attempt : Nat) :
    Nat → LoopResult α
  | 0 =>
      match outcomes attempt with
      | .success v => .returned v attempt
      | .failure msg =>
          if is_throttling_error msg then .exhausted attempt
          else .raised msg attempt
  | r + 1 =>
      match outcomes attempt with
      | .success v => .returned v attempt
      | .failure msg =>
          if is_throttling_error msg then retry_loop_go outcomes (attempt + 1) r
          else .raised msg attempt

/-- One bounded retry loop of _call_with_retry_and_fallback, with the n-th
call's outcome given by outcomes n.  The backoff sleep is a pure delay and
has no observable effect in the model. -/
def retry_loop (outcomes : Nat → CallOutcome α) (max_attempts : Nat) :
    LoopResult α :=
  retry_loop_go outcomes 1 (max_attempts - 1)

/-- The two operations a provider client exposes. -/
inductive BackendOp where
  | chat
  | embed
deriving DecidableEq

/-- "if backup_cfg.type == chat: backup_client.chat(...) else ...embed". -/
def backup_op_of (cfg : ModelConfig) : BackendOp :=
  if cfg.type = "chat" then .chat else .embed

/-- The observable outcome of _call_with_retry_and_fallback.  result is the
Python-visible return/raise; the remaining fields record how each loop ran
(which attempts occurred, which backup selection and operation were built),
so that attempt-count properties can be stated. -/
structure InvokeResult (α : Type) where
  result : Except RouterError α
  primary_loop : LoopResult α
  backup_selection : Option ModelSelection
  backup_op : Option BackendOp
  backup_loop : Option (LoopResult α)

/-- The backup path of _call_with_retry_and_fallback (entered after the
primary loop exhausted at attempt a).  Python truthiness:
"if not model_cfg.backup_model_id" treats None and the empty string alike.
backup_backend models _create_provider_client: the outcome of the n-th
call of the given operation on a client freshly built from the given
config and params. -/
def backup_path {α β : Type} (models : List (String × ModelConfig))
    (model_cfg : ModelConfig)
    (backup_backend : ModelConfig → List (String × String) → BackendOp → β → Nat → CallOutcome α)
    (func_arg : β) (a : Nat) : InvokeResult α :=
  match model_cfg.backup_model_id with
  | none =>
      ⟨.error (.exhaustedNoBackup model_cfg.id), .exhausted a, none, none, none⟩
  | some bid =>
      if bid = "" then
        ⟨.error (.exhaustedNoBackup model_cfg.id), .exhausted a, none, none, none⟩
      else
        match lookupModel models bid with
        | none =>
            ⟨.error (.backupNotFound bid model_cfg.id), .exhausted a,
              none, none, none⟩
        | some backup_cfg =>
            let backup_params := backup_cfg.default_params
            let op := backup_op_of backup_cfg
            let bloop := retry_loop
              (fun n => backup_backend backup_cfg backup_params op func_arg n)
              backup_cfg.retry_policy.max_attempts
            { result :=
                match bloop with
                | .returned v _ => .ok v
                | .raised msg _ => .error (.backendError msg)
                | .exhausted _ =>
                    .error (.bothExhausted model_cfg.id backup_cfg.id)
              primary_loop := .exhausted a
              backup_selection := some ⟨backup_cfg, backup_params⟩
              backup_op := some op
              backup_loop := some bloop }

/-- _call_with_retry_and_fallback: bounded retry on the primary capability
(primary_call n is the outcome of the n-th func(func_arg) call), then the
backup path. -/
def call_with_retry_and_fallback {α β : Type}
    (models : List (String × ModelConfig)) (selection : ModelSelection)
    (primary_call : Nat → CallOutcome α)
    (backup_backend : ModelConfig → List (String × String) → BackendOp → β → Nat → CallOutcome α)
    (func_arg : β) : InvokeResult α :=
  match retry_loop primary_call selection.model_config.retry_policy.max_attempts with
  | .returned v a => ⟨.ok v, .returned v a, none, none, none⟩
  | .raised msg a => ⟨.error (.backendError msg), .raised msg a, none, none, none⟩
  | .exhausted a =>
      backup_path models selection.model_config backup_backend func_arg a

/-- ModelHandle.chat: the task-kind guard, then the invoker with the
already-created provider client's chat operation.  The second component
records whether the invoker ran at all (none = rejected before any
backend attempt). -/
def ModelHandle.chat {α β : Type} (models : List (String × ModelConfig))
    (selection : ModelSelection)
    (provider_client : BackendOp → β → Nat → CallOutcome α)
    (backup_backend : ModelConfig → List (String × String) → BackendOp → β → Nat → CallOutcome α)
    (messages : β) : Except RouterError α × Option (InvokeResult α) :=
  if selection.model_config.type ≠ "chat" then
    (.error (.typeMismatch "ModelHandle.chat() called on non-chat model"), none)
  else
    let r := call_with_retry_and_fallback models selection
      (fun n => provider_client .chat messages n) backup_backend messages
    (r.result, some r)

/-- ModelHandle.embed, symmetric to ModelHandle.chat. -/
def ModelHandle.embed {α β : Type} (models : List (String × ModelConfig))
    (selection : ModelSelection)
    (provider_client : BackendOp → β → Nat → CallOutcome α)
    (backup_backend : ModelConfig → List (String × String) → BackendOp → β → Nat → CallOutcome α)
    (text : β) : Except RouterError α × Option (InvokeResult α) :=
  if selection.model_config.type ≠ "embedding" then
    (.error (.typeMismatch "ModelHandle.embed() called on non-embedding model"), none)
  else
    let r := call_with_retry_and_fallback models selection
      (fun n => provider_client .embed text n) backup_backend text
    (r.result, some r)

/-- An outcome that is an exception classified as throttling. -/
def ThrottleFail (o : CallOutcome α) : Prop :=
  ∃ msg, o = .failure msg ∧ is_throttling_error msg = true

/-- Reference definition following the claim wording, NOT the source (used
only to compare the source semantics against the claim): a rule matches
iff every set (present) condition field agrees with the FeatureSummary —
equality for task kind, complexity and language, membership for the tier
list, and the range tests with gte inclusive and lt exclusive. -/
def spec_rule_matches (rule : RoutingRule) (f : FeatureSummary) : Bool :=
  (match rule.when.task_type with
    | none => true | some s => decide (s = f.task_type)) &&
  (match rule.when.complexity with
    | none => true | some s => decide (s = f.complexity)) &&
  (match rule.when.language with
    | none => true | some s => decide (s = f.language)) &&
  (match rule.when.tenant_tiers with
    | none => true | some l => decide (f.tenant_tier ∈ l)) &&
  checkRange rule.when.context_tokens_range f.context_tokens &&
  checkRange rule.when.chunk_tokens_range f.token_count

/-! ### Helper lemmas -/

theorem retry_loop_go_throttle {α : Type} (o : Nat → CallOutcome α)
    (h : ∀ n, ThrottleFail (o n)) :
    ∀ r a, retry_loop_go o a r = .exhausted (a + r) := by
  intro r
  induction r with
  | zero =>
      intro a
      obtain ⟨msg, hm, ht⟩ := h a
      simp [retry_loop_go, hm, ht]
  | succ r ih =>
      intro a
      obtain ⟨msg, hm, ht⟩ := h a
      simp only [retry_loop_go, hm, ht, if_true]
      rw [ih (a + 1)]
      congr 1
      omega

theorem retry_loop_throttle {α : Type} (o : Nat → CallOutcome α)
    (h : ∀ n, ThrottleFail (o n)) (N : Nat) :
    retry_loop o N = .exhausted (max N 1) := by
  rw [retry_loop, retry_loop_go_throttle o h]
  congr 1
  omega

theorem retry_loop_go_raise {α : Type} (o : Nat → CallOutcome α) (k : Nat)
    (msg : String) (hmsg : o k = .failure msg)
    (hth : is_throttling_error msg = false) :
    ∀ r a, a ≤ k → k ≤ a + r →
      (∀ n, a ≤ n → n < k → ThrottleFail (o n)) →
      retry_loop_go o a r = .raised msg k := by
  intro r
  induction r with
  | zero =>
      intro a hak hka _
      have hae : a = k := by omega
      subst hae
      simp [retry_loop_go, hmsg, hth]
  | succ r ih =>
      intro a hak hka hpre
      by_cases hc : a = k
      · subst hc
        simp [retry_loop_go, hmsg, hth]
      · obtain ⟨m, hm, ht⟩ := hpre a le_rfl (by omega)
        simp only [retry_loop_go, hm, ht, if_true]
        exact ih (a + 1) (by omega) (by omega)
          (fun n h1 h2 => hpre n (by omega) h2)

theorem retry_loop_go_skip {α : Type} (o : Nat → CallOutcome α) (k : Nat) :
    ∀ r a, a ≤ k → k < a + r →
      (∀ n, a ≤ n → n ≤ k → ThrottleFail (o n)) →
      retry_loop_go o a r = retry_loop_go o (k + 1) (a + r - (k + 1)) := by
  intro r
  induction r with
  | zero => intro a hak hkr _; omega
  | succ r ih =>
      intro a hak hkr h
      obtain ⟨m, hm, ht⟩ := h a le_rfl hak
      by_cases hc : a = k
      · subst hc
        simp only [retry_loop_go, hm, ht, if_true]
        congr 1
        omega
      · simp only [retry_loop_go, hm, ht, if_true]
        rw [ih (a + 1) (by omega) (by omega) (fun n h1 h2 => h n (by omega) h2)]
        congr 1
        omega

theorem retry_loop_go_frame {α : Type} (o g : Nat → CallOutcome α) :
    ∀ r a, (∀ n, a ≤ n → n ≤ a + r → g n = o n) →
      retry_loop_go g a r = retry_loop_go o a r := by
  intro r
  induction r with
  | zero =>
      intro a h
      simp only [retry_loop_go]
      rw [h a le_rfl (by omega)]
  | succ r ih =>
      intro a h
      simp only [retry_loop_go]
      rw [h a le_rfl (by omega)]
      cases hc : o a with
      | success v => rfl
      | failure msg =>
          by_cases ht : is_throttling_error msg
          · simp only [hc, ht, if_true]
            exact ih (a + 1) (fun n h1 h2 => h n (by omega) (by omega))
          · simp [hc, ht]

theorem backup_path_primary_loop {α β : Type}
    (models : List (String × ModelConfig)) (model_cfg : ModelConfig)
    (backup_backend : ModelConfig → List (String × String) → BackendOp → β → Nat → CallOutcome α)
    (func_arg : β) (a : Nat) :
    (backup_path models model_cfg backup_backend func_arg a
      : InvokeResult α).primary_loop = .exhausted a := by
  unfold backup_path
  cases model_cfg.backup_model_id with
  | none => rfl
  | some bid =>
      by_cases hb : bid = ""
      · simp [hb]
      · simp only [if_neg hb]
        cases lookupModel models bid with
        | none => rfl
        | some backup_cfg => rfl

theorem invoker_primary_loop {α β : Type} (models : List (String × ModelConfig))
    (selection : ModelSelection) (primary_call : Nat → CallOutcome α)
    (backup_backend : ModelConfig → List (String × String) → BackendOp → β → Nat → CallOutcome α)
    (func_arg : β) :
    (call_with_retry_and_fallback models selection primary_call backup_backend
      func_arg).primary_loop
      = retry_loop primary_call selection.model_config.retry_policy.max_attempts := by
  rw [call_with_retry_and_fallback]
  cases h : retry_loop primary_call selection.model_config.retry_policy.max_attempts with
  | returned v a => rfl
  | raised msg a => rfl
  | exhausted a => exact backup_path_primary_loop models _ backup_backend func_arg a

theorem select_from_rules_append (models : List (String × ModelConfig))
    (f : FeatureSummary) :
    ∀ (l l2 : List RoutingRule) (res : Except RouterError ModelSelection),
      select_from_rules models f l = some res →
      select_from_rules models f (l ++ l2) = some res := by
  intro l
  induction l with
  | nil => intro l2 res h; simp [select_from_rules] at h
  | cons r rest ih =>
      intro l2 res h
      by_cases hm : rule_matches r f
      · simp only [select_from_rules, hm, if_true] at h
        simp only [List.cons_append, select_from_rules, hm, if_true]
        exact h
      · simp only [select_from_rules, hm, if_false, Bool.false_eq_true] at h
        simp only [List.cons_append, select_from_rules, hm, if_false,
          Bool.false_eq_true]
        exact ih l2 res h

theorem select_from_rules_of_first (models : List (String × ModelConfig))
    (f : FeatureSummary) :
    ∀ (pre : List RoutingRule) (r : RoutingRule) (post : List RoutingRule),
      (∀ x ∈ pre, rule_matches x f = false) → rule_matches r f = true →
      select_from_rules models f (pre ++ r :: post)
        = some (apply_rule models f r) := by
  intro pre
  induction pre with
  | nil => intro r post _ hr; simp [select_from_rules, hr]
  | cons p rest ih =>
      intro r post hpre hr
      have hp : rule_matches p f = false := hpre p (List.mem_cons_self p rest)
      simp only [List.cons_append, select_from_rules, hp, Bool.false_eq_true,
        if_false]
      exact ih r post (fun x hx => hpre x (List.mem_cons_of_mem p hx)) hr

theorem select_from_rules_isSome (models : List (String × ModelConfig))
    (f : FeatureSummary) :
    ∀ l : List RoutingRule, (∃ r ∈ l, rule_matches r f = true) →
      ∃ res, select_from_rules models f l = some res := by
  intro l
  induction l with
  | nil => rintro ⟨r, hr, _⟩; cases hr
  | cons p rest ih =>
      rintro ⟨r, hr, hm⟩
      by_cases hp : rule_matches p f
      · exact ⟨apply_rule models f p, by simp [select_from_rules, hp]⟩
      · rcases List.mem_cons.mp hr with h | h
        · subst h; exact absurd hm hp
        · obtain ⟨res, hres⟩ := ih ⟨r, h, hm⟩
          exact ⟨res, by simp [select_from_rules, hp, hres]⟩

theorem checkEq_eq_true_iff (c : Option String) (v : String) :
    checkEq c v = true ↔ ∀ s, c = some s → s ≠ "" → s = v := by
  cases c with
  | none => simp [checkEq]
  | some s =>
      by_cases h : s = ""
      · subst h; simp [checkEq]
      · simp [checkEq, h]

theorem checkTier_eq_true_iff (c : Option (List String)) (v : String) :
    checkTier c v = true ↔ ∀ l, c = some l → l ≠ [] → v ∈ l := by
  cases c with
  | none => simp [checkTier]
  | some l =>
      by_cases h : l = []
      · subst h; simp [checkTier]
      · simp [checkTier, h]

theorem checkRange_eq_true_iff (c : Option RuleConditionRange) (v : Nat) :
    checkRange c v = true ↔
      ∀ rg, c = some rg →
        (∀ g, rg.gte = some g → g ≤ v) ∧ (∀ u, rg.lt = some u → v < u) := by
  cases c with
  | none => simp [checkRange]
  | some rg =>
      obtain ⟨g, u⟩ := rg
      cases g <;> cases u <;> simp [checkRange]

theorem chars_begins_iff : ∀ n h : List Char, chars_begins n h = true ↔ n <+: h := by
  intro n
  induction n with
  | nil => intro h; simp [chars_begins]
  | cons a as ih =>
      intro h
      cases h with
      | nil => simp [chars_begins]
      | cons b bs => simp [chars_begins, ih bs, List.cons_prefix_cons]

theorem chars_sub_iff : ∀ h n : List Char, chars_sub n h = true ↔ n <:+: h := by
  intro h
  induction h with
  | nil => intro n; simp [chars_sub, chars_begins_iff]
  | cons c t ih =>
      intro n
      simp [chars_sub, chars_begins_iff, ih, List.infix_cons_iff]

theorem invoker_exhausted {α β : Type} (models : List (String × ModelConfig))
    (selection : ModelSelection) (primary_call : Nat → CallOutcome α)
    (backup_backend : ModelConfig → List (String × String) → BackendOp → β → Nat → CallOutcome α)
    (func_arg : β) (hthr : ∀ n, ThrottleFail (primary_call n)) :
    call_with_retry_and_fallback models selection primary_call backup_backend
        func_arg
      = backup_path models selection.model_config backup_backend func_arg
          (max selection.model_config.retry_policy.max_attempts 1) := by
  rw [call_with_retry_and_fallback, retry_loop_throttle primary_call hthr]

theorem backup_path_resolved {α β : Type} (models : List (String × ModelConfig))
    (model_cfg : ModelConfig)
    (backup_backend : ModelConfig → List (String × String) → BackendOp → β → Nat → CallOutcome α)
    (func_arg : β) (a : Nat) (b : String) (backup_cfg : ModelConfig)
    (hb : model_cfg.backup_model_id = some b) (hne : b ≠ "")
    (hl : lookupModel models b = some backup_cfg) :
    (backup_path models model_cfg backup_backend func_arg a : InvokeResult α)
      = { result :=
            match retry_loop
                (fun n => backup_backend backup_cfg backup_cfg.default_params
                  (backup_op_of backup_cfg) func_arg n)
                backup_cfg.retry_policy.max_attempts with
            | .returned v _ => .ok v
            | .raised msg _ => .error (.backendError msg)
            | .exhausted _ =>
                .error (.bothExhausted model_cfg.id backup_cfg.id)
          primary_loop := .exhausted a
          backup_selection := some ⟨backup_cfg, backup_cfg.default_params⟩
          backup_op := some (backup_op_of backup_cfg)
          backup_loop := some (retry_loop
            (fun n => backup_backend backup_cfg backup_cfg.default_params
              (backup_op_of backup_cfg) func_arg n)
            backup_cfg.retry_policy.max_attempts) } := by
  unfold backup_path
  rw [hb]
  simp only [if_neg hne, hl]

theorem apply_rule_ok_model (models : List (String × ModelConfig))
    (f : FeatureSummary) (r : RoutingRule) (sel : ModelSelection)
    (h : apply_rule models f r = .ok sel) :
    lookupModel models r.use_model = some sel.model_config := by
  unfold apply_rule at h
  cases hl : lookupModel models r.use_model with
  | none => rw [hl] at h; cases h
  | some mcfg =>
      rw [hl] at h
      dsimp only at h
      cases hc : ensure_context_limit mcfg f with
      | error e => rw [hc] at h; cases h
      | ok u => rw [hc] at h; cases h; rfl

/-! ### Claims -/

/-- C1: for every policy table and FeatureSummary, when a rule is the
earliest one matching the summary (every rule before it in table order
fails to match), the Selector's outcome is computed from that rule alone —
it equals apply_rule of that rule, an expression in which neither the
later rules nor the defaults occur — and any returned Selection's target
is the model named by that rule's use_model. -/
theorem selector_first_match_wins (cfg : RouterConfig) (f : FeatureSummary)
    (pre : List RoutingRule) (r : RoutingRule) (post : List RoutingRule)
    (hrules : cfg.rules = pre ++ r :: post)
    (hpre : ∀ x ∈ pre, rule_matches x f = false)
    (hr : rule_matches r f = true) :
    select_model_for_features cfg f = apply_rule cfg.models f r ∧
    ∀ sel, select_model_for_features cfg f = .ok sel →
      lookupModel cfg.models r.use_model = some sel.model_config := by
  have h1 : select_from_rules cfg.models f cfg.rules
      = some (apply_rule cfg.models f r) := by
    rw [hrules]
    exact select_from_rules_of_first cfg.models f pre r post hpre hr
  have h2 : select_model_for_features cfg f = apply_rule cfg.models f r := by
    unfold select_model_for_features
    rw [h1]
  refine ⟨h2, fun sel hsel => ?_⟩
  exact apply_rule_ok_model cfg.models f r sel (by rw [← h2]; exact hsel)

/-- C1 witness: a concrete table whose second and third rules both match
the summary; the earlier of the two decides the selection. -/
theorem selector_first_match_wins_witness :
    select_model_for_features
      { models := [
          ("strong",
            { id := "strong", provider := "anthropic", type := "chat", model_id := "s" }),
          ("weak",
            { id := "weak", provider := "bedrock", type := "chat", model_id := "w" })],
        rules := [
          { id := "r0", when := { task_type := some "embedding" }, use_model := "weak" },
          { id := "r1", when := { complexity := some "high", tenant_tiers := some ["premium"] }, use_model := "strong" },
          { id := "r2", when := {}, use_model := "weak" }] }
      { task_type := "chat", token_count := 10, size_class := "small",
        language := "en", complexity := "high", context_tokens := 0,
        tenant_tier := "premium" }
      = .ok ⟨
        { id := "strong", provider := "anthropic", type := "chat", model_id := "s" },
        []⟩ := by
  rw [(selector_first_match_wins _ _
    [{ id := "r0", when := { task_type := some "embedding" }, use_model := "weak" }]
    { id := "r1", when := { complexity := some "high", tenant_tiers := some ["premium"] }, use_model := "strong" }
    [{ id := "r2", when := {}, use_model := "weak" }]
    (by rfl)
    (by
      intro x hx
      rw [List.mem_singleton.mp hx]
      rfl)
    (by rfl)).1]
  rfl

/-- C2 counterexample: a rule whose tenant_tiers condition is set to the
empty list.  The claim's reading (every set field constrains: tenant tier
membership in the set list) rejects every summary, but the code's Python
truthiness test skips the guard for a falsy (empty) list, so the rule
matches. -/
theorem rule_matches_spec_mismatch_cex :
    rule_matches
      { id := "r", when := { tenant_tiers := some [] }, use_model := "m" }
      { task_type := "chat", token_count := 1, size_class := "small",
        language := "en", complexity := "low", context_tokens := 0,
        tenant_tier := "standard" } = true ∧
    spec_rule_matches
      { id := "r", when := { tenant_tiers := some [] }, use_model := "m" }
      { task_type := "chat", token_count := 1, size_class := "small",
        language := "en", complexity := "low", context_tokens := 0,
        tenant_tier := "standard" } = false :=
  ⟨rfl, rfl⟩

/-- C2 (amended): a rule matches iff every set and truthy condition field
agrees with the FeatureSummary — task kind, complexity and language
equality, tenant tier membership, and the range tests with gte an
inclusive lower bound and lt an exclusive upper bound, the context range
against context tokens and the chunk range against token count.  A field
that is unset, or set to the empty string or the empty list, is a
wildcard; in particular appending an all-wildcard rule at the end of the
table never changes which earlier rule wins. -/
theorem rule_matches_characterization :
    (∀ (r : RoutingRule) (f : FeatureSummary),
      rule_matches r f = true ↔
        ((∀ s, r.when.task_type = some s → s ≠ "" → s = f.task_type) ∧
         (∀ s, r.when.complexity = some s → s ≠ "" → s = f.complexity) ∧
         (∀ s, r.when.language = some s → s ≠ "" → s = f.language) ∧
         (∀ l, r.when.tenant_tiers = some l → l ≠ [] → f.tenant_tier ∈ l) ∧
         (∀ rg, r.when.context_tokens_range = some rg →
            (∀ g, rg.gte = some g → g ≤ f.context_tokens) ∧
            (∀ u, rg.lt = some u → f.context_tokens < u)) ∧
         (∀ rg, r.when.chunk_tokens_range = some rg →
            (∀ g, rg.gte = some g → g ≤ f.token_count) ∧
            (∀ u, rg.lt = some u → f.token_count < u)))) ∧
    (∀ (cfg : RouterConfig) (f : FeatureSummary) (w : RoutingRule),
      (∀ g, rule_matches w g = true) →
      (∃ r ∈ cfg.rules, rule_matches r f = true) →
      select_model_for_features { cfg with rules := cfg.rules ++ [w] } f
        = select_model_for_features cfg f) := by
  constructor
  · intro r f
    rw [rule_matches]
    simp only [Bool.and_eq_true, checkEq_eq_true_iff, checkTier_eq_true_iff,
      checkRange_eq_true_iff, and_assoc]
  · intro cfg f w _ hex
    obtain ⟨ms, rs, dc, de⟩ := cfg
    obtain ⟨res, hres⟩ := select_from_rules_isSome ms f rs (by simpa using hex)
    have happ := select_from_rules_append ms f rs [w] res hres
    unfold select_model_for_features
    dsimp only
    rw [hres, happ]

/-- C2 witness: an all-wildcard rule matches a concrete summary, and
appending it after a matching rule leaves the selection unchanged. -/
theorem rule_matches_characterization_witness :
    rule_matches { id := "w", when := {}, use_model := "m" }
      { task_type := "chat", token_count := 1, size_class := "small",
        language := "en", complexity := "low", context_tokens := 0,
        tenant_tier := "standard" } = true ∧
    select_model_for_features
      { models := [
          ("m", { id := "m", provider := "bedrock", type := "chat", model_id := "x" })],
        rules := [
          { id := "r", when := { task_type := some "chat" }, use_model := "m" },
          { id := "w", when := {}, use_model := "m" }] }
      { task_type := "chat", token_count := 1, size_class := "small",
        language := "en", complexity := "low", context_tokens := 0,
        tenant_tier := "standard" }
      = select_model_for_features
      { models := [
          ("m", { id := "m", provider := "bedrock", type := "chat", model_id := "x" })],
        rules := [
          { id := "r", when := { task_type := some "chat" }, use_model := "m" }] }
      { task_type := "chat", token_count := 1, size_class := "small",
        language := "en", complexity := "low", context_tokens := 0,
        tenant_tier := "standard" } :=
  ⟨(rule_matches_characterization.1 _ _).mpr (by simp),
   rule_matches_characterization.2
     { models := [
         ("m", { id := "m", provider := "bedrock", type := "chat", model_id := "x" })],
       rules := [
         { id := "r", when := { task_type := some "chat" }, use_model := "m" }] }
     _ _ (fun g => rfl)
     ⟨{ id := "r", when := { task_type := some "chat" }, use_model := "m" },
       by simp, rfl⟩⟩

/-- C3 counterexample: the claim quantifies over every value of N, but
with max_attempts = 0 the post-incremented while loop still performs one
primary attempt (the claim demands exactly zero) before the backup path. -/
theorem retry_zero_attempts_cex :
    ({ model_config := { id := "p", provider := "bedrock", type := "chat", model_id := "x", retry_policy := { max_attempts := 0, backoff_ms := 0 } }, params := [] } : ModelSelection).model_config.retry_policy.max_attempts = 0 ∧
    (call_with_retry_and_fallback []
      { model_config := { id := "p", provider := "bedrock", type := "chat", model_id := "x", retry_policy := { max_attempts := 0, backoff_ms := 0 } }, params := [] }
      (fun _ => (CallOutcome.failure "throttling" : CallOutcome Nat))
      (fun _ _ _ _ _ => CallOutcome.failure "throttling")
      ()).primary_loop = LoopResult.exhausted 1 :=
  ⟨rfl, rfl⟩

/-- C3 (amended): for every Selection whose target's retry policy has
max_attempts = N with N ≥ 1, if every primary invocation fails with a
throttling-classified error then the primary loop exhausts at exactly
attempt N before the backup path is considered, and the outcome only
depends on the outcomes of attempts 1..N — so an (N+1)th primary attempt
never occurs.  (With N = 0 the code still performs one attempt; see the
counterexample.) -/
theorem primary_retry_boundary {α β : Type} (models : List (String × ModelConfig))
    (selection : ModelSelection) (primary_call : Nat → CallOutcome α)
    (backup_backend : ModelConfig → List (String × String) → BackendOp → β → Nat → CallOutcome α)
    (func_arg : β)
    (hthr : ∀ n, ThrottleFail (primary_call n))
    (hN : 1 ≤ selection.model_config.retry_policy.max_attempts) :
    (call_with_retry_and_fallback models selection primary_call backup_backend
        func_arg).primary_loop
      = .exhausted selection.model_config.retry_policy.max_attempts ∧
    ∀ g : Nat → CallOutcome α,
      (∀ n, 1 ≤ n → n ≤ selection.model_config.retry_policy.max_attempts →
        g n = primary_call n) →
      (call_with_retry_and_fallback models selection g backup_backend
          func_arg).primary_loop
        = .exhausted selection.model_config.retry_policy.max_attempts := by
  have hmax : max selection.model_config.retry_policy.max_attempts 1
      = selection.model_config.retry_policy.max_attempts := by omega
  constructor
  · rw [invoker_primary_loop, retry_loop_throttle primary_call hthr, hmax]
  · intro g hg
    rw [invoker_primary_loop, retry_loop,
      retry_loop_go_frame primary_call g _ 1 (fun n h1 h2 => hg n h1 (by omega)),
      ← retry_loop, retry_loop_throttle primary_call hthr, hmax]

/-- C3 witness: max_attempts = 3 with every attempt throttling — the
primary loop exhausts at exactly attempt 3. -/
theorem primary_retry_boundary_witness :
    (call_with_retry_and_fallback []
      { model_config := { id := "p", provider := "bedrock", type := "chat", model_id := "x", retry_policy := { max_attempts := 3, backoff_ms := 0 } }, params := [] }
      (fun _ => (CallOutcome.failure "throttling" : CallOutcome Nat))
      (fun _ _ _ _ _ => CallOutcome.failure "throttling")
      ()).primary_loop = LoopResult.exhausted 3 :=
  (primary_retry_boundary _ _ _ _ _
    (fun _ => ⟨"throttling", rfl, by decide⟩) (by decide)).1

/-- C4 counterexample: the claim demands rejection whenever the declared
max is exceeded by one, but a declared max_context_tokens of 0 is falsy
in Python, which disables the capacity check, so a chat summary with
context 1 (one over the declared max 0) is accepted. -/
theorem capacity_zero_max_cex :
    ({ id := "m0", provider := "bedrock", type := "chat", model_id := "x", max_context_tokens := some 0 } : ModelConfig).max_context_tokens = some 0 ∧
    ensure_context_limit
      { id := "m0", provider := "bedrock", type := "chat", model_id := "x", max_context_tokens := some 0 }
      { task_type := "chat", token_count := 1, size_class := "small", language := "en", complexity := "low", context_tokens := 1, tenant_tier := "standard" }
      = .ok () :=
  ⟨rfl, rfl⟩

/-- C4 (amended): against a target declaring a nonzero max context size,
a chat summary with context tokens exactly equal to the max is accepted
and one over is rejected with capacityExceeded (the ValueError the spec
names CapacityExceededError); against a target declaring a nonzero max
chunk size, an embedding summary whose token count exceeds it is rejected
the same way.  The check only compares the summary against the limit and
returns it unchanged — no silent truncation.  (A declared max of 0 is
falsy in Python and disables the check; see the counterexample.) -/
theorem capacity_boundary (cfg : ModelConfig) (f : FeatureSummary) (m : Nat)
    (hm : m ≠ 0) :
    (f.task_type = "chat" → cfg.max_context_tokens = some m →
      (f.context_tokens = m → ensure_context_limit cfg f = .ok ()) ∧
      (f.context_tokens = m + 1 →
        ensure_context_limit cfg f
          = .error (.capacityExceeded (m + 1) m cfg.id))) ∧
    (f.task_type = "embedding" → cfg.max_chunk_tokens = some m →
      m < f.token_count →
      ensure_context_limit cfg f
        = .error (.capacityExceeded f.token_count m cfg.id)) := by
  constructor
  · intro htask hmax
    constructor
    · intro hctx
      simp [ensure_context_limit, htask, hmax, hctx, hm]
    · intro hctx
      simp [ensure_context_limit, htask, hmax, hctx, hm]
  · intro htask hmax hlt
    simp [ensure_context_limit, htask, hmax, hm, hlt]

/-- C4 witness: with max context 4096, context 4096 is accepted and 4097
is rejected with the capacity error. -/
theorem capacity_boundary_witness :
    ensure_context_limit
      { id := "m", provider := "bedrock", type := "chat", model_id := "x", max_context_tokens := some 4096 }
      { task_type := "chat", token_count := 1, size_class := "small", language := "en", complexity := "low", context_tokens := 4096, tenant_tier := "standard" }
      = .ok () ∧
    ensure_context_limit
      { id := "m", provider := "bedrock", type := "chat", model_id := "x", max_context_tokens := some 4096 }
      { task_type := "chat", token_count := 1, size_class := "small", language := "en", complexity := "low", context_tokens := 4097, tenant_tier := "standard" }
      = .error (.capacityExceeded 4097 4096 "m") :=
  ⟨((capacity_boundary _ _ 4096 (by decide)).1 rfl rfl).1 rfl,
   ((capacity_boundary _ _ 4096 (by decide)).1 rfl rfl).2 (by norm_num)⟩

/-- C5 counterexample: the claim's iff says a throttling-classified error
is always retried, but at the final allowed attempt it is not — with
max_attempts = 1 the first error is throttling-classified and the loop
nevertheless ends at attempt 1 with no retry. -/
theorem throttle_not_retried_at_cap_cex :
    is_throttling_error "throttling" = true ∧
    retry_loop (fun _ => (CallOutcome.failure "throttling" : CallOutcome Nat)) 1
      = LoopResult.exhausted 1 :=
  ⟨by decide, rfl⟩

/-- C5 (amended): an error is throttling-classified exactly when its
lowercased message contains one of "throttling", "rate limit",
"too many requests", "tokens per minute"; in a retry loop (the primary
and backup loops of the invoker are both retry_loop) a non-throttling
error reached at attempt k propagates at once with exactly k attempts and
no retry, and a throttling-classified error at attempt k is retried —
the loop continues at attempt k+1 — exactly when attempts remain
(k < max_attempts). -/
theorem retry_classification (α : Type) :
    (∀ msg, is_throttling_error msg = true ↔
      ("throttling".data <:+: py_lower msg ∨
       "rate limit".data <:+: py_lower msg ∨
       "too many requests".data <:+: py_lower msg ∨
       "tokens per minute".data <:+: py_lower msg)) ∧
    (∀ (outcomes : Nat → CallOutcome α) (N k : Nat) (msg : String),
      1 ≤ k → k ≤ max N 1 →
      (∀ n, 1 ≤ n → n < k → ThrottleFail (outcomes n)) →
      outcomes k = .failure msg → is_throttling_error msg = false →
      retry_loop outcomes N = .raised msg k) ∧
    (∀ (outcomes : Nat → CallOutcome α) (N k : Nat),
      1 ≤ k → k < N →
      (∀ n, 1 ≤ n → n ≤ k → ThrottleFail (outcomes n)) →
      retry_loop outcomes N = retry_loop_go outcomes (k + 1) (N - (k + 1))) := by
  refine ⟨?_, ?_, ?_⟩
  · intro msg
    simp [is_throttling_error, chars_sub_iff, Bool.or_eq_true, or_assoc]
  · intro outcomes N k msg h1 h2 hpre hk hth
    rw [retry_loop]
    exact retry_loop_go_raise outcomes k msg hk hth (N - 1) 1 h1 (by omega)
      (fun n hn1 hn2 => hpre n hn1 hn2)
  · intro outcomes N k h1 h2 hpre
    rw [retry_loop,
      retry_loop_go_skip outcomes k (N - 1) 1 h1 (by omega)
        (fun n hn1 hn2 => hpre n hn1 hn2)]
    congr 1
    omega

/-- C5 witness: a throttling failure at attempt 1 followed by a
non-throttling failure at attempt 2 propagates at attempt 2 under a
3-attempt policy; an all-throttling stream under a 2-attempt policy is
retried past attempt 1 (the loop continues at attempt 2); and a message
containing "Rate limit" is throttling-classified. -/
theorem retry_classification_witness :
    retry_loop
      (fun n => if n = 1 then (CallOutcome.failure "throttling" : CallOutcome Nat)
        else CallOutcome.failure "boom") 3
      = LoopResult.raised "boom" 2 ∧
    retry_loop (fun _ => (CallOutcome.failure "throttling" : CallOutcome Nat)) 2
      = retry_loop_go (fun _ => (CallOutcome.failure "throttling" : CallOutcome Nat)) 2 0 ∧
    is_throttling_error "Rate limit exceeded" = true :=
  ⟨(retry_classification Nat).2.1 _ 3 2 "boom" (by decide) (by decide)
      (fun n hn1 hn2 => by
        have hn : n = 1 := by omega
        subst hn
        exact ⟨"throttling", rfl, by decide⟩)
      rfl (by decide),
   (retry_classification Nat).2.2 _ 2 1 (by decide) (by decide)
      (fun n hn1 hn2 => ⟨"throttling", rfl, by decide⟩),
   ((retry_classification Nat).1 "Rate limit exceeded").mpr (by decide)⟩


/-- C6 counterexample: a backup id configured as the empty string that
resolves nowhere — the claim requires backupNotFound for a configured but
unresolvable id, but Python truthiness routes the falsy empty string
through "if not model_cfg.backup_model_id" and the call fails with
exhaustedNoBackup. -/
theorem empty_backup_id_cex :
    ({ id := "p", provider := "bedrock", type := "chat", model_id := "x", backup_model_id := some "" } : ModelConfig).backup_model_id = some "" ∧
    lookupModel [] "" = none ∧
    (call_with_retry_and_fallback []
      { model_config := { id := "p", provider := "bedrock", type := "chat", model_id := "x", backup_model_id := some "" }, params := [] }
      (fun _ => (CallOutcome.failure "throttling" : CallOutcome Nat))
      (fun _ _ _ _ _ => CallOutcome.failure "throttling")
      ()).result = .error (.exhaustedNoBackup "p") :=
  ⟨rfl, rfl, rfl⟩

/-- C6 (amended): when every primary attempt fails with throttling, a
backup id that is unset — or set to the falsy empty string — fails the
call with exhaustedNoBackup (spec: ExhaustedNoBackupError), and a
nonempty configured backup id that does not resolve in the table fails it
with backupNotFound (spec: BackupNotFoundError). -/
theorem exhausted_backup_errors {α β : Type} (models : List (String × ModelConfig))
    (selection : ModelSelection) (primary_call : Nat → CallOutcome α)
    (backup_backend : ModelConfig → List (String × String) → BackendOp → β → Nat → CallOutcome α)
    (func_arg : β)
    (hthr : ∀ n, ThrottleFail (primary_call n)) :
    (selection.model_config.backup_model_id = none ∨
        selection.model_config.backup_model_id = some "" →
      (call_with_retry_and_fallback models selection primary_call
          backup_backend func_arg).result
        = .error (.exhaustedNoBackup selection.model_config.id)) ∧
    (∀ b, selection.model_config.backup_model_id = some b → b ≠ "" →
      lookupModel models b = none →
      (call_with_retry_and_fallback models selection primary_call
          backup_backend func_arg).result
        = .error (.backupNotFound b selection.model_config.id)) := by
  have hcall := invoker_exhausted models selection primary_call backup_backend
    func_arg hthr
  constructor
  · intro h
    rw [hcall]
    unfold backup_path
    rcases h with h | h
    · rw [h]
    · rw [h]
      rfl
  · intro b hb hne hl
    rw [hcall]
    unfold backup_path
    rw [hb]
    dsimp only
    rw [if_neg hne, hl]

/-- C6 witness: no backup configured gives exhaustedNoBackup; backup id
"b" absent from the table gives backupNotFound. -/
theorem exhausted_backup_errors_witness :
    (call_with_retry_and_fallback []
      { model_config := { id := "p1", provider := "bedrock", type := "chat", model_id := "x" }, params := [] }
      (fun _ => (CallOutcome.failure "throttling" : CallOutcome Nat))
      (fun _ _ _ _ _ => CallOutcome.failure "throttling")
      ()).result = .error (.exhaustedNoBackup "p1") ∧
    (call_with_retry_and_fallback []
      { model_config := { id := "p2", provider := "bedrock", type := "chat", model_id := "x", backup_model_id := some "b" }, params := [] }
      (fun _ => (CallOutcome.failure "throttling" : CallOutcome Nat))
      (fun _ _ _ _ _ => CallOutcome.failure "throttling")
      ()).result = .error (.backupNotFound "b" "p2") :=
  ⟨(exhausted_backup_errors _ _ _ _ _
      (fun _ => ⟨"throttling", rfl, by decide⟩)).1 (Or.inl rfl),
   (exhausted_backup_errors _ _ _ _ _
      (fun _ => ⟨"throttling", rfl, by decide⟩)).2 "b" rfl (by decide) rfl⟩

/-- C7: when the primary exhausts its throttling retries and the backup
id resolves, the invoker builds a fresh Selection for the backup whose
parameters are exactly the backup target's own default parameters
(whatever parameters — including rule overrides — the primary selection
carried), runs the retry loop under the backup's own retry policy on the
backup stream, and if every backup attempt also fails with throttling the
call fails with bothExhausted (spec: BothExhaustedError). -/
theorem backup_fresh_selection {α β : Type} (models : List (String × ModelConfig))
    (selection : ModelSelection) (primary_call : Nat → CallOutcome α)
    (backup_backend : ModelConfig → List (String × String) → BackendOp → β → Nat → CallOutcome α)
    (func_arg : β) (b : String) (backup_cfg : ModelConfig)
    (hthr : ∀ n, ThrottleFail (primary_call n))
    (hb : selection.model_config.backup_model_id = some b) (hne : b ≠ "")
    (hl : lookupModel models b = some backup_cfg) :
    (call_with_retry_and_fallback models selection primary_call backup_backend
        func_arg).backup_selection
      = some ⟨backup_cfg, backup_cfg.default_params⟩ ∧
    (call_with_retry_and_fallback models selection primary_call backup_backend
        func_arg).backup_loop
      = some (retry_loop
          (fun n => backup_backend backup_cfg backup_cfg.default_params
            (backup_op_of backup_cfg) func_arg n)
          backup_cfg.retry_policy.max_attempts) ∧
    ((∀ n, ThrottleFail (backup_backend backup_cfg backup_cfg.default_params
        (backup_op_of backup_cfg) func_arg n)) →
      (call_with_retry_and_fallback models selection primary_call
          backup_backend func_arg).result
        = .error (.bothExhausted selection.model_config.id backup_cfg.id)) := by
  have hcall := invoker_exhausted models selection primary_call backup_backend
    func_arg hthr
  have hres := backup_path_resolved models selection.model_config
    backup_backend func_arg
    (max selection.model_config.retry_policy.max_attempts 1) b backup_cfg
    hb hne hl
  rw [hcall, hres]
  refine ⟨rfl, rfl, fun hbthr => ?_⟩
  dsimp only
  rw [retry_loop_throttle _ hbthr]

/-- C7 witness: primary "p" (one attempt, override-style params) fails
over to backup "b"; the backup selection carries exactly the backup's own
defaults and after the backup also throttles out the call fails with
bothExhausted. -/
theorem backup_fresh_selection_witness :
    (call_with_retry_and_fallback
      [("b", { id := "b", provider := "gemini", type := "chat", model_id := "g", default_params := [("temperature", "0")] })]
      { model_config := { id := "p", provider := "bedrock", type := "chat", model_id := "x", backup_model_id := some "b", retry_policy := { max_attempts := 1, backoff_ms := 0 } }, params := [("temperature", "1")] }
      (fun _ => (CallOutcome.failure "throttling" : CallOutcome Nat))
      (fun _ _ _ _ _ => CallOutcome.failure "throttling")
      ()).backup_selection
      = some ⟨{ id := "b", provider := "gemini", type := "chat", model_id := "g", default_params := [("temperature", "0")] }, [("temperature", "0")]⟩ ∧
    (call_with_retry_and_fallback
      [("b", { id := "b", provider := "gemini", type := "chat", model_id := "g", default_params := [("temperature", "0")] })]
      { model_config := { id := "p", provider := "bedrock", type := "chat", model_id := "x", backup_model_id := some "b", retry_policy := { max_attempts := 1, backoff_ms := 0 } }, params := [("temperature", "1")] }
      (fun _ => (CallOutcome.failure "throttling" : CallOutcome Nat))
      (fun _ _ _ _ _ => CallOutcome.failure "throttling")
      ()).result = .error (.bothExhausted "p" "b") :=
  ⟨(backup_fresh_selection
      [("b", { id := "b", provider := "gemini", type := "chat", model_id := "g", default_params := [("temperature", "0")] })]
      { model_config := { id := "p", provider := "bedrock", type := "chat", model_id := "x", backup_model_id := some "b", retry_policy := { max_attempts := 1, backoff_ms := 0 } }, params := [("temperature", "1")] }
      (fun _ => (CallOutcome.failure "throttling" : CallOutcome Nat))
      (fun _ _ _ _ _ => CallOutcome.failure "throttling")
      () "b"
      { id := "b", provider := "gemini", type := "chat", model_id := "g", default_params := [("temperature", "0")] }
      (fun _ => ⟨"throttling", rfl, by decide⟩) rfl (by decide) rfl).1,
   (backup_fresh_selection
      [("b", { id := "b", provider := "gemini", type := "chat", model_id := "g", default_params := [("temperature", "0")] })]
      { model_config := { id := "p", provider := "bedrock", type := "chat", model_id := "x", backup_model_id := some "b", retry_policy := { max_attempts := 1, backoff_ms := 0 } }, params := [("temperature", "1")] }
      (fun _ => (CallOutcome.failure "throttling" : CallOutcome Nat))
      (fun _ _ _ _ _ => CallOutcome.failure "throttling")
      () "b"
      { id := "b", provider := "gemini", type := "chat", model_id := "g", default_params := [("temperature", "0")] }
      (fun _ => ⟨"throttling", rfl, by decide⟩) rfl (by decide) rfl).2.2
     (fun _ => ⟨"throttling", rfl, by decide⟩)⟩

/-- C8: invoking chat on a handle whose selected target's task kind is
not chat, or embed on one whose kind is not embedding, fails immediately
with the type-mismatch TypeError (spec: TypeMismatchError); the none in
the second component records that the invoker never ran — no backend
attempt, no retry, no failover. -/
theorem handle_type_mismatch {α β : Type} (models : List (String × ModelConfig))
    (selection : ModelSelection)
    (provider_client : BackendOp → β → Nat → CallOutcome α)
    (backup_backend : ModelConfig → List (String × String) → BackendOp → β → Nat → CallOutcome α)
    (arg : β) :
    (selection.model_config.type ≠ "chat" →
      ModelHandle.chat models selection provider_client backup_backend arg
        = (.error (.typeMismatch "ModelHandle.chat() called on non-chat model"),
            none)) ∧
    (selection.model_config.type ≠ "embedding" →
      ModelHandle.embed models selection provider_client backup_backend arg
        = (.error (.typeMismatch "ModelHandle.embed() called on non-embedding model"),
            none)) := by
  constructor
  · intro h
    simp [ModelHandle.chat, h]
  · intro h
    simp [ModelHandle.embed, h]

/-- C8 witness: chat on an embedding-kind target is rejected with the
type-mismatch error and the invoker never runs. -/
theorem handle_type_mismatch_witness :
    ModelHandle.chat ([] : List (String × ModelConfig))
      { model_config := { id := "e", provider := "bedrock", type := "embedding", model_id := "x" }, params := [] }
      (fun _ _ _ => (CallOutcome.success 0 : CallOutcome Nat))
      (fun _ _ _ _ _ => CallOutcome.success 0)
      ()
      = (.error (.typeMismatch "ModelHandle.chat() called on non-chat model"),
          none) :=
  (handle_type_mismatch _ _ _ _ _).1 (by decide)

/-- C9: the Feature Extractor is a pure function of its descriptor —
extracting twice from equal descriptors yields identical FeatureSummary
values in every field — and the token estimate is monotonic
non-decreasing in input length. -/
theorem feature_extractor_pure_monotone :
    (∀ t1 t2 : TaskDescriptor, t1 = t2 →
      build_feature_summary t1 = build_feature_summary t2) ∧
    (∀ s t : String, s.length ≤ t.length →
      estimate_tokens s ≤ estimate_tokens t) := by
  constructor
  · intro t1 t2 h
    rw [h]
  · intro s t h
    unfold estimate_tokens
    have hd : s.length / 4 ≤ t.length / 4 := Nat.div_le_div_right h
    omega

/-- C9 witness: extraction at a concrete descriptor is stable and the
token estimate respects a concrete length increase. -/
theorem feature_extractor_pure_monotone_witness :
    build_feature_summary { text := "hello world" }
      = build_feature_summary { text := "hello world" } ∧
    estimate_tokens "ab" ≤ estimate_tokens "abcdefghij" :=
  ⟨feature_extractor_pure_monotone.1 _ _ rfl,
   feature_extractor_pure_monotone.2 "ab" "abcdefghij" (by decide)⟩

/-- C10: the operation run in the backup loop is chosen by the backup
target's own task kind, not by the operation the caller invoked — for a
chat call (handle passes the client's chat operation) whose primary
exhausts and whose backup target is of embedding kind, the failover
proceeds with no task-kind compatibility check and the backup loop runs
the backup client's embed operation applied to the original chat
messages. -/
theorem backup_op_by_backup_kind {α β : Type} (models : List (String × ModelConfig))
    (selection : ModelSelection)
    (provider_client : BackendOp → β → Nat → CallOutcome α)
    (backup_backend : ModelConfig → List (String × String) → BackendOp → β → Nat → CallOutcome α)
    (messages : β) (b : String) (backup_cfg : ModelConfig)
    (htype : selection.model_config.type = "chat")
    (hthr : ∀ n, ThrottleFail (provider_client .chat messages n))
    (hb : selection.model_config.backup_model_id = some b) (hne : b ≠ "")
    (hl : lookupModel models b = some backup_cfg)
    (hbtype : backup_cfg.type = "embedding") :
    (ModelHandle.chat models selection provider_client backup_backend
        messages).2
      = some (call_with_retry_and_fallback models selection
          (fun n => provider_client .chat messages n) backup_backend messages) ∧
    (call_with_retry_and_fallback models selection
        (fun n => provider_client .chat messages n) backup_backend
        messages).backup_op = some .embed ∧
    (call_with_retry_and_fallback models selection
        (fun n => provider_client .chat messages n) backup_backend
        messages).backup_loop
      = some (retry_loop
          (fun n => backup_backend backup_cfg backup_cfg.default_params
            .embed messages n)
          backup_cfg.retry_policy.max_attempts) := by
  have hop : backup_op_of backup_cfg = .embed := by
    unfold backup_op_of
    rw [hbtype]
    rfl
  have hcall := invoker_exhausted models selection
    (fun n => provider_client .chat messages n) backup_backend messages hthr
  have hres := backup_path_resolved models selection.model_config
    backup_backend messages
    (max selection.model_config.retry_policy.max_attempts 1) b backup_cfg
    hb hne hl
  refine ⟨?_, ?_, ?_⟩
  · simp [ModelHandle.chat, htype]
  · rw [hcall, hres]
    dsimp only
    rw [hop]
  · rw [hcall, hres]
    dsimp only
    rw [hop]

/-- C10 witness: a chat-kind primary failing over to an embedding-kind
backup — the backup operation recorded is embed. -/
theorem backup_op_by_backup_kind_witness :
    (call_with_retry_and_fallback
      [("b", { id := "b", provider := "gemini", type := "embedding", model_id := "g" })]
      { model_config := { id := "p", provider := "bedrock", type := "chat", model_id := "x", backup_model_id := some "b", retry_policy := { max_attempts := 1, backoff_ms := 0 } }, params := [] }
      (fun _ => (CallOutcome.failure "throttling" : CallOutcome Nat))
      (fun _ _ _ _ _ => CallOutcome.failure "throttling")
      ()).backup_op = some BackendOp.embed :=
  (backup_op_by_backup_kind
    [("b", { id := "b", provider := "gemini", type := "embedding", model_id := "g" })]
    { model_config := { id := "p", provider := "bedrock", type := "chat", model_id := "x", backup_model_id := some "b", retry_policy := { max_attempts := 1, backoff_ms := 0 } }, params := [] }
    (fun _ _ _ => (CallOutcome.failure "throttling" : CallOutcome Nat))
    (fun _ _ _ _ _ => CallOutcome.failure "throttling")
    () "b"
    { id := "b", provider := "gemini", type := "embedding", model_id := "g" }
    rfl (fun _ => ⟨"throttling", rfl, by decide⟩) rfl (by decide) rfl rfl).2.1


end ModelRouterLean
